import Mathlib

/-!
Verification of the vTPM TDVMCALL-service transport layer
(VTpmContextWrite / VTpmContextRead / FreeSharedBuffer and the frame
builders) as a shallow embedding.

Machine integers are modelled as `Nat` with explicit `% 2 ^ 32` where the
source stores into a `UINT32`.  Buffers are byte sequences: the command
buffer and response skeletons built by the guest are `List Nat` values,
and the response buffer content after the hypercall is an environment
function `Nat → Nat` read through `byteAt` (which truncates to a byte).
The nondeterministic collaborators (page allocator, shared-bit mask
provider, hypercall, page-attribute setter) are an explicit environment
record `VTpmEnv`; each entry point is a pure function from its arguments
and the environment to a result record capturing every caller-visible
effect: returned EFI status, the bytes copied out, the final size cell,
whether and with which timeout the hypercall was issued, and the
`FreeSharedBuffer` calls made on exit.
-/

/-- The EFI status values this module produces or propagates. -/
inductive EfiStatus where
  | success
  | invalidParameter
  | unsupported
  | aborted
  | bufferTooSmall
  deriving DecidableEq, Repr

/-- `SERVICE_VTPM_SEND_MESSAGE` -/
def SERVICE_VTPM_SEND_MESSAGE : Nat := 1

/-- `SERVICE_VTPM_RECEIVE_MESSAGE` -/
def SERVICE_VTPM_RECEIVE_MESSAGE : Nat := 2

/-- `VMM_SPDM_TIMEOUT` : the fixed 2000 ms hypercall timeout. -/
def VMM_SPDM_TIMEOUT : Nat := 2000

/-- `VTPM_DEFAULT_ALLOCATION_PAGE` -/
def VTPM_DEFAULT_ALLOCATION_PAGE : Nat := 1

/-- `EFI_PAGES_TO_SIZE (VTPM_DEFAULT_ALLOCATION_PAGE)` : buffer capacity. -/
def VTPM_BUFFER_SIZE : Nat := 4096

/-- `sizeof (TDVMCALL_SERVICE_COMMAND_HEADER)` = 16 + 4 + 4 (packed). -/
def TDVMCALL_SERVICE_COMMAND_HEADER_SIZE : Nat := 24

/-- `sizeof (TDVMCALL_SERVICE_RESPONSE_HEADER)` = 16 + 4 + 4 (packed). -/
def TDVMCALL_SERVICE_RESPONSE_HEADER_SIZE : Nat := 24

/-- `sizeof (SEND_MESSAGE_COMMAND_HEADER)` = 1 + 1 + 2 (packed). -/
def SEND_MESSAGE_COMMAND_HEADER_SIZE : Nat := 4

/-- `sizeof (SEND_MESSAGE_RESPONSE_HEADER)` = 1 + 1 + 1 + 1 (packed). -/
def SEND_MESSAGE_RESPONSE_HEADER_SIZE : Nat := 4

/-- `sizeof (RECEIVE_MESSAGE_COMMAND_HEADER)` = 1 + 1 + 2 (packed). -/
def RECEIVE_MESSAGE_COMMAND_HEADER_SIZE : Nat := 4

/-- `sizeof (RECEIVE_MESSAGE_RESPONSE_HEADER)` = 1 + 1 + 1 + 1 (packed). -/
def RECEIVE_MESSAGE_RESPONSE_HEADER_SIZE : Nat := 4

/-- Little-endian serialization of a `UINT32` value into four bytes. -/
def le32 (n : Nat) : List Nat :=
  [n % 256, n / 256 % 256, n / 65536 % 256, n / 16777216 % 256]

/-- The 16-byte vTPM service GUID from the command/response header templates. -/
def vtpmServiceGuid : List Nat :=
  [0x93, 0x07, 0x59, 0x64, 0x52, 0x78, 0x52, 0x4e,
   0xbe, 0x45, 0xcd, 0xbb, 0x11, 0x6f, 0x20, 0xf3]

/-- Byte image of `mSendMessageCommandHeaderTemplate`
    {Version = 0, Command = SEND(1), Reserved = 0}. -/
def mSendMessageCommandHeaderTemplate : List Nat := [0, 1, 0, 0]

/-- Byte image of `mSendMessageResponseHeaderTemplate`
    {Version = 0, Command = SEND(1), Status = 0, Reserved = 0}. -/
def mSendMessageResponseHeaderTemplate : List Nat := [0, 1, 0, 0]

/-- Byte image of `mReceiveMessageCommandHeaderTemplate`
    {Version = 0, Command = RECEIVE(2), Reserved = 0}. -/
def mReceiveMessageCommandHeaderTemplate : List Nat := [0, 2, 0, 0]

/-- Byte image of `mReceiveMessageResponseHeaderTemplate`
    {Version = 0, Command = RECEIVE(2), Status = 0, Reserved = 0}. -/
def mReceiveMessageResponseHeaderTemplate : List Nat := [0, 2, 0, 0]

/-- Read one byte of a response-buffer content function, truncated to a byte
    (the buffer holds bytes). -/
def byteAt (f : Nat → Nat) (i : Nat) : Nat := f i % 256

/-- Read a little-endian `UINT32` field at byte offset `off` of a
    response-buffer content function. -/
def le32At (f : Nat → Nat) (off : Nat) : Nat :=
  byteAt f off + 256 * byteAt f (off + 1) +
    65536 * byteAt f (off + 2) + 16777216 * byteAt f (off + 3)

/-- Read a little-endian `UINT32` field at byte offset `off` of a byte list
    (missing bytes read as 0). -/
def le32AtList (l : List Nat) (off : Nat) : Nat :=
  l.getD off 0 % 256 + 256 * (l.getD (off + 1) 0 % 256) +
    65536 * (l.getD (off + 2) 0 % 256) + 16777216 * (l.getD (off + 3) 0 % 256)

/-- Environment of one `VTpmContextWrite` / `VTpmContextRead` invocation:
    outcomes of the collaborator calls the function makes.
    `rspAfter` is the content of the shared response buffer at the moment
    the function reads it back after `TdVmCall` (the host may have written
    anything). `freeCmdClear` / `freeRspClear` are the results of the
    `MemEncryptTdxSetPageSharedBit (1, …)` calls made inside the two
    `FreeSharedBuffer` cleanup calls. -/
structure VTpmEnv where
  cmdAllocOk : Bool
  rspAllocOk : Bool
  tdxSharedBit : Nat
  retCode : Nat
  retValue : Nat
  rspAfter : Nat → Nat
  freeCmdClear : EfiStatus
  freeRspClear : EfiStatus

/-- `TdvmcallRspHeader->Status` : `UINT32` at byte offset 16+4 = 20. -/
def outerRspStatus (env : VTpmEnv) : Nat := le32At env.rspAfter 20

/-- `TdvmcallRspHeader->Length` : `UINT32` at byte offset 16. -/
def outerRspLength (env : VTpmEnv) : Nat := le32At env.rspAfter 16

/-- Inner message response `Status` byte: offset 24 + 2 = 26. -/
def innerRspStatus (env : VTpmEnv) : Nat := byteAt env.rspAfter 26

/-- `FreeSharedBuffer (Buffer, Pages)`.
    Arguments: whether `Buffer` is `NULL`, the page count, and the status
    returned by `MemEncryptTdxSetPageSharedBit (1, Buffer, Pages)`.
    Result: the returned `EFI_STATUS`, paired with whether `FreePages`
    was executed. -/
def FreeSharedBuffer (bufferIsNull : Bool) (pages : Nat)
    (clearStatus : EfiStatus) : EfiStatus × Bool :=
  if bufferIsNull = true ∨ pages = 0 then
    (EfiStatus.invalidParameter, false)
  else
    (clearStatus, decide (clearStatus = EfiStatus.success))

/-- Command buffer built by `VTpmContextWrite` (lines 253-264): inner
    SEND_MESSAGE command header at offset 24, the request payload at
    offset 28, then the outer TDVMCALL_SERVICE command header at offset 0
    with its `Length` field back-patched to `Ptr - CmdBuffer`
    (a `UINT32`, hence the `% 2 ^ 32`). -/
def buildWriteCmdBuffer (request : List Nat) : List Nat :=
  vtpmServiceGuid ++ le32 ((28 + request.length) % 2 ^ 32) ++ le32 0 ++
    mSendMessageCommandHeaderTemplate ++ request

/-- Command buffer built by `VTpmContextRead` (lines 371-379): inner
    RECEIVE_MESSAGE command header at offset 24 (no payload), outer header
    with `Length = 28`. -/
def buildReadCmdBuffer : List Nat :=
  vtpmServiceGuid ++ le32 28 ++ le32 0 ++ mReceiveMessageCommandHeaderTemplate

/-- Response skeleton written by `VTpmContextWrite` (lines 266-275):
    inner SEND_MESSAGE response template at offset 24, outer response
    header with `Length = DataLen = Ptr - RspBuffer = 28`. -/
def writeRspSkeleton : List Nat :=
  vtpmServiceGuid ++ le32 28 ++ le32 0 ++ mSendMessageResponseHeaderTemplate

/-- Response skeleton written by `VTpmContextRead` (lines 381-390):
    inner RECEIVE_MESSAGE response template at offset 24, outer response
    header with `Length = DataLen = BufferSize = 4096`. -/
def readRspSkeleton : List Nat :=
  vtpmServiceGuid ++ le32 VTPM_BUFFER_SIZE ++ le32 0 ++
    mReceiveMessageResponseHeaderTemplate

/-- Status computed by `VTpmContextWrite` once both buffers are allocated
    (lines 277-316): shared-bit mask check, hypercall result check, outer
    service status check, inner message status check, in that order. -/
def writeStatusAfterBuild (env : VTpmEnv) : EfiStatus :=
  if env.tdxSharedBit = 0 then EfiStatus.aborted
  else if env.retCode ≠ 0 ∨ env.retValue ≠ 0 then EfiStatus.aborted
  else if outerRspStatus env ≠ 0 then EfiStatus.aborted
  else if innerRspStatus env ≠ 0 then EfiStatus.aborted
  else EfiStatus.success

/-- Caller-visible outcome of one `VTpmContextWrite` call. -/
structure WriteResult where
  status : EfiStatus
  cmdBuffer : Option (List Nat)
  rspSkeleton : Option (List Nat)
  invokedTimeout : Option Nat
  cmdFree : Option (EfiStatus × Bool)
  rspFree : Option (EfiStatus × Bool)

/-- `VTpmContextWrite (RequestSize, Request, Timeout)`.
    `request` is the payload bytes, `timeout` the (unused) caller timeout.
    Mirrors lines 218-328: allocate the two shared buffers (each failure
    is `EFI_UNSUPPORTED`), build the command frame and response skeleton,
    check the shared-address mask, issue `TdVmCall` with the fixed
    `VMM_SPDM_TIMEOUT`, check hypercall result and both status layers
    (each failure is `EFI_ABORTED`), and on every exit free each
    allocated buffer via `FreeSharedBuffer`, discarding its result. -/
def VTpmContextWrite (request : List Nat) (env : VTpmEnv) (timeout : Nat) :
    WriteResult :=
  if env.cmdAllocOk = false then
    { status := EfiStatus.unsupported, cmdBuffer := none, rspSkeleton := none,
      invokedTimeout := none, cmdFree := none, rspFree := none }
  else if env.rspAllocOk = false then
    { status := EfiStatus.unsupported, cmdBuffer := none, rspSkeleton := none,
      invokedTimeout := none,
      cmdFree := some (FreeSharedBuffer false VTPM_DEFAULT_ALLOCATION_PAGE
        env.freeCmdClear),
      rspFree := none }
  else
    { status := writeStatusAfterBuild env,
      cmdBuffer := some (buildWriteCmdBuffer request),
      rspSkeleton := some writeRspSkeleton,
      invokedTimeout :=
        if env.tdxSharedBit = 0 then none else some VMM_SPDM_TIMEOUT,
      cmdFree := some (FreeSharedBuffer false VTPM_DEFAULT_ALLOCATION_PAGE
        env.freeCmdClear),
      rspFree := some (FreeSharedBuffer false VTPM_DEFAULT_ALLOCATION_PAGE
        env.freeRspClear) }

/-- Caller-visible outcome of one `VTpmContextRead` call: final value of
    the in/out `*ResponseSize` cell, and the bytes copied into the
    caller's `Response` buffer (`[]` when nothing is written). -/
structure ReadResult where
  status : EfiStatus
  responseSize : Nat
  copied : List Nat
  cmdBuffer : Option (List Nat)
  rspSkeleton : Option (List Nat)
  invokedTimeout : Option Nat
  cmdFree : Option (EfiStatus × Bool)
  rspFree : Option (EfiStatus × Bool)

/-- Post-hypercall processing of `VTpmContextRead` (lines 392-445):
    mask / hypercall / outer status / inner status checks, then
    `DataLen = TdvmcallRspHeader->Length - HeaderLen` as a `UINT32`
    (wrapping subtraction, `HeaderLen = 24 + 4 = 28`), the capacity
    comparison against `*ResponseSize`, and on success the
    `CopyMem (Response, RspBuffer + HeaderLen, DataLen)`.
    Returns (status, final `*ResponseSize`, bytes copied out). -/
def readCore (responseSize : Nat) (env : VTpmEnv) :
    EfiStatus × Nat × List Nat :=
  if env.tdxSharedBit = 0 then (EfiStatus.aborted, responseSize, [])
  else if env.retCode ≠ 0 ∨ env.retValue ≠ 0 then
    (EfiStatus.aborted, responseSize, [])
  else if outerRspStatus env ≠ 0 then (EfiStatus.aborted, responseSize, [])
  else if innerRspStatus env ≠ 0 then (EfiStatus.aborted, responseSize, [])
  else
    let headerLen := TDVMCALL_SERVICE_RESPONSE_HEADER_SIZE +
      RECEIVE_MESSAGE_RESPONSE_HEADER_SIZE
    let dataLen := (outerRspLength env + 2 ^ 32 - headerLen) % 2 ^ 32
    if dataLen > responseSize then (EfiStatus.bufferTooSmall, dataLen, [])
    else
      (EfiStatus.success, dataLen,
        (List.range dataLen).map (fun i => byteAt env.rspAfter (headerLen + i)))

/-- `VTpmContextRead (ResponseSize, Response, Timeout)`.
    `responseSize` is the caller capacity in `*ResponseSize`, `timeout`
    the (unused) caller timeout. Mirrors lines 333-457. -/
def VTpmContextRead (responseSize : Nat) (env : VTpmEnv) (timeout : Nat) :
    ReadResult :=
  if env.cmdAllocOk = false then
    { status := EfiStatus.unsupported, responseSize := responseSize,
      copied := [], cmdBuffer := none, rspSkeleton := none,
      invokedTimeout := none, cmdFree := none, rspFree := none }
  else if env.rspAllocOk = false then
    { status := EfiStatus.unsupported, responseSize := responseSize,
      copied := [], cmdBuffer := none, rspSkeleton := none,
      invokedTimeout := none,
      cmdFree := some (FreeSharedBuffer false VTPM_DEFAULT_ALLOCATION_PAGE
        env.freeCmdClear),
      rspFree := none }
  else
    let core := readCore responseSize env
    { status := core.1, responseSize := core.2.1, copied := core.2.2,
      cmdBuffer := some buildReadCmdBuffer,
      rspSkeleton := some readRspSkeleton,
      invokedTimeout :=
        if env.tdxSharedBit = 0 then none else some VMM_SPDM_TIMEOUT,
      cmdFree := some (FreeSharedBuffer false VTPM_DEFAULT_ALLOCATION_PAGE
        env.freeCmdClear),
      rspFree := some (FreeSharedBuffer false VTPM_DEFAULT_ALLOCATION_PAGE
        env.freeRspClear) }

/-- A well-behaved host environment whose response carries outer length 32
    (payload 4 bytes, first payload byte 0xAA at offset 28). -/
def env32 : VTpmEnv :=
  { cmdAllocOk := true, rspAllocOk := true, tdxSharedBit := 2 ^ 51,
    retCode := 0, retValue := 0,
    rspAfter := fun i => if i = 16 then 32 else if i = 28 then 0xAA else 0,
    freeCmdClear := EfiStatus.success, freeRspClear := EfiStatus.success }

/-- An adversarial host environment: both statuses 0 but outer length 0,
    smaller than the 28-byte combined header size. -/
def envShortLen : VTpmEnv :=
  { cmdAllocOk := true, rspAllocOk := true, tdxSharedBit := 2 ^ 51,
    retCode := 0, retValue := 0, rspAfter := fun _ => 0,
    freeCmdClear := EfiStatus.success, freeRspClear := EfiStatus.success }

/-- An environment whose shared-address mask provider returns 0. -/
def envMask0 : VTpmEnv :=
  { cmdAllocOk := true, rspAllocOk := true, tdxSharedBit := 0,
    retCode := 0, retValue := 0, rspAfter := fun _ => 0,
    freeCmdClear := EfiStatus.success, freeRspClear := EfiStatus.success }

/-- The outer `Length` field is a 4-byte little-endian read, so below 2^32. -/
theorem outerRspLength_lt (env : VTpmEnv) : outerRspLength env < 2 ^ 32 := by
  unfold outerRspLength le32At byteAt
  omega

/-- `UINT32` subtraction of the 28-byte header size does not wrap when the
    outer length is at least 28. -/
theorem uint32_sub28_of_le (L : Nat) (h1 : 28 ≤ L) (h2 : L < 2 ^ 32) :
    (L + 2 ^ 32 - 28) % 2 ^ 32 = L - 28 := by omega

/-- C8: FreeSharedBuffer fails with EFI_INVALID_PARAMETER when the buffer is
    null or the page count is 0; otherwise it clears the shared attribute
    first and frees the pages only when the clearing succeeded; when the
    clearing fails it returns that platform error with the pages still
    allocated. -/
theorem free_shared_buffer_contract (bufferIsNull : Bool) (pages : Nat)
    (clearStatus : EfiStatus) :
    (bufferIsNull = true ∨ pages = 0 →
      FreeSharedBuffer bufferIsNull pages clearStatus =
        (EfiStatus.invalidParameter, false)) ∧
    (bufferIsNull = false → pages ≠ 0 → clearStatus = EfiStatus.success →
      FreeSharedBuffer bufferIsNull pages clearStatus =
        (EfiStatus.success, true)) ∧
    (bufferIsNull = false → pages ≠ 0 → clearStatus ≠ EfiStatus.success →
      FreeSharedBuffer bufferIsNull pages clearStatus =
        (clearStatus, false)) := by
  unfold FreeSharedBuffer
  refine ⟨fun h => by simp [h], fun h1 h2 h3 => ?_, fun h1 h2 h3 => ?_⟩
  · subst h1 h3; simp [h2]
  · subst h1; simp [h2, h3]

/-- C8 witness: the contract evaluated at a null handle, a successful
    clear, and a failing clear. -/
theorem free_shared_buffer_contract_witness :
    FreeSharedBuffer true 1 EfiStatus.success =
      (EfiStatus.invalidParameter, false) ∧
    FreeSharedBuffer false 1 EfiStatus.success = (EfiStatus.success, true) ∧
    FreeSharedBuffer false 1 EfiStatus.aborted = (EfiStatus.aborted, false) :=
  ⟨(free_shared_buffer_contract true 1 EfiStatus.success).1 (Or.inl rfl),
   (free_shared_buffer_contract false 1 EfiStatus.success).2.1 rfl
     (by decide) rfl,
   (free_shared_buffer_contract false 1 EfiStatus.aborted).2.2 rfl
     (by decide) (by decide)⟩

/-- C5: when both shared buffers allocate but the shared-address mask
    provider returns 0, both VTpmContextWrite and VTpmContextRead fail
    with EFI_ABORTED (the status the design maps to ConfigurationError)
    without issuing TdVmCall. -/
theorem mask_zero_no_hypercall (request : List Nat) (responseSize : Nat)
    (env : VTpmEnv) (t : Nat)
    (hc : env.cmdAllocOk = true) (hr : env.rspAllocOk = true)
    (hm : env.tdxSharedBit = 0) :
    (VTpmContextWrite request env t).status = EfiStatus.aborted ∧
    (VTpmContextWrite request env t).invokedTimeout = none ∧
    (VTpmContextRead responseSize env t).status = EfiStatus.aborted ∧
    (VTpmContextRead responseSize env t).invokedTimeout = none := by
  unfold VTpmContextWrite VTpmContextRead writeStatusAfterBuild readCore
  simp [hc, hr, hm]

/-- C5 witness: the mask-0 environment, concrete request and capacity. -/
theorem mask_zero_no_hypercall_witness :
    (VTpmContextWrite [0xDE] envMask0 2000).status = EfiStatus.aborted ∧
    (VTpmContextWrite [0xDE] envMask0 2000).invokedTimeout = none ∧
    (VTpmContextRead 16 envMask0 2000).status = EfiStatus.aborted ∧
    (VTpmContextRead 16 envMask0 2000).invokedTimeout = none :=
  mask_zero_no_hypercall [0xDE] 16 envMask0 2000 rfl rfl rfl

/-- C9: the caller-supplied Timeout argument is never read: two calls around
    environments differing only in that argument return identical results,
    and whenever the hypercall is issued its timeout is the fixed
    VMM_SPDM_TIMEOUT = 2000 ms constant. -/
theorem timeout_parameter_irrelevant (request : List Nat)
    (responseSize : Nat) (env : VTpmEnv) (t1 t2 : Nat) :
    VTpmContextWrite request env t1 = VTpmContextWrite request env t2 ∧
    VTpmContextRead responseSize env t1 =
      VTpmContextRead responseSize env t2 ∧
    ((VTpmContextWrite request env t1).invokedTimeout = none ∨
      (VTpmContextWrite request env t1).invokedTimeout =
        some VMM_SPDM_TIMEOUT) ∧
    ((VTpmContextRead responseSize env t1).invokedTimeout = none ∨
      (VTpmContextRead responseSize env t1).invokedTimeout =
        some VMM_SPDM_TIMEOUT) := by
  refine ⟨rfl, rfl, ?_, ?_⟩
  · by_cases h1 : env.cmdAllocOk = false
    · simp [VTpmContextWrite, h1]
    · by_cases h2 : env.rspAllocOk = false
      · simp [VTpmContextWrite, h1, h2]
      · by_cases h3 : env.tdxSharedBit = 0 <;>
          simp [VTpmContextWrite, h1, h2, h3]
  · by_cases h1 : env.cmdAllocOk = false
    · simp [VTpmContextRead, h1]
    · by_cases h2 : env.rspAllocOk = false
      · simp [VTpmContextRead, h1, h2]
      · by_cases h3 : env.tdxSharedBit = 0 <;>
          simp [VTpmContextRead, h1, h2, h3]

/-- C10: whenever VTpmContextRead fails before the capacity comparison
    (allocation failure, zero shared-address mask, nonzero hypercall return
    code or value, or nonzero status at either envelope layer), the caller
    sees *ResponseSize unchanged and no byte written into Response. -/
theorem read_failure_atomicity (responseSize : Nat) (env : VTpmEnv) (t : Nat)
    (h : env.cmdAllocOk = false ∨ env.rspAllocOk = false ∨
      env.tdxSharedBit = 0 ∨ env.retCode ≠ 0 ∨ env.retValue ≠ 0 ∨
      outerRspStatus env ≠ 0 ∨ innerRspStatus env ≠ 0) :
    (VTpmContextRead responseSize env t).responseSize = responseSize ∧
    (VTpmContextRead responseSize env t).copied = [] := by
  by_cases h1 : env.cmdAllocOk = false
  · simp [VTpmContextRead, h1]
  by_cases h2 : env.rspAllocOk = false
  · simp [VTpmContextRead, h1, h2]
  by_cases h3 : env.tdxSharedBit = 0
  · simp [VTpmContextRead, readCore, h1, h2, h3]
  by_cases h4 : env.retCode ≠ 0 ∨ env.retValue ≠ 0
  · simp [VTpmContextRead, readCore, h1, h2, h3, h4]
  by_cases h5 : outerRspStatus env ≠ 0
  · simp [VTpmContextRead, readCore, h1, h2, h3, h4, h5]
  by_cases h6 : innerRspStatus env ≠ 0
  · simp [VTpmContextRead, readCore, h1, h2, h3, h4, h5, h6]
  rcases h with h | h | h | h | h | h | h <;> simp_all

/-- C10 witness: a mask-0 failure leaves the size cell at its input value 7
    and the output buffer untouched. -/
theorem read_failure_atomicity_witness :
    (VTpmContextRead 7 envMask0 2000).responseSize = 7 ∧
    (VTpmContextRead 7 envMask0 2000).copied = [] :=
  read_failure_atomicity 7 envMask0 2000 (Or.inr (Or.inr (Or.inl rfl)))

/-- Reading back the outer Length field at offset 16 of the command buffer
    built by VTpmContextWrite yields the stored 32-bit value. -/
theorem buildWriteCmdBuffer_length_field (request : List Nat) :
    le32AtList (buildWriteCmdBuffer request) 16 =
      (28 + request.length) % 2 ^ 32 := by
  have h : le32AtList (buildWriteCmdBuffer request) 16 =
      (28 + request.length) % 2 ^ 32 % 256 % 256 +
        256 * ((28 + request.length) % 2 ^ 32 / 256 % 256 % 256) +
        65536 * ((28 + request.length) % 2 ^ 32 / 65536 % 256 % 256) +
        16777216 * ((28 + request.length) % 2 ^ 32 / 16777216 % 256 % 256) :=
    rfl
  rw [h]
  omega

/-- C3 counterexample: in VTpmContextWrite the response skeleton written
    before the hypercall carries outer Length 28 (the combined size of the
    two response headers), not the full 4096-byte buffer capacity. -/
theorem write_skeleton_length_not_capacity :
    (VTpmContextWrite [0xDE, 0xAD, 0xBE, 0xEF] env32 2000).rspSkeleton =
      some writeRspSkeleton ∧
    le32AtList writeRspSkeleton 16 = 28 ∧ (28 : Nat) ≠ VTPM_BUFFER_SIZE :=
  ⟨rfl, by decide, by decide⟩

/-- C3 amended: the response skeleton's outer Length field is the full
    4096-byte buffer capacity in VTpmContextRead, but in VTpmContextWrite
    it is 28, the combined size of the outer and inner response headers. -/
theorem rsp_skeleton_lengths (request : List Nat) (responseSize : Nat)
    (env : VTpmEnv) (t : Nat)
    (hc : env.cmdAllocOk = true) (hr : env.rspAllocOk = true) :
    (VTpmContextWrite request env t).rspSkeleton = some writeRspSkeleton ∧
    le32AtList writeRspSkeleton 16 = 28 ∧
    (VTpmContextRead responseSize env t).rspSkeleton = some readRspSkeleton ∧
    le32AtList readRspSkeleton 16 = VTPM_BUFFER_SIZE := by
  refine ⟨?_, by decide, ?_, by decide⟩ <;>
    simp [VTpmContextWrite, VTpmContextRead, hc, hr]

/-- C3 amended, witness: concrete call with a cooperative environment. -/
theorem rsp_skeleton_lengths_witness :
    (VTpmContextWrite [0xAB] env32 2000).rspSkeleton =
      some writeRspSkeleton ∧
    le32AtList writeRspSkeleton 16 = 28 ∧
    (VTpmContextRead 16 env32 2000).rspSkeleton = some readRspSkeleton ∧
    le32AtList readRspSkeleton 16 = VTPM_BUFFER_SIZE :=
  rsp_skeleton_lengths [0xAB] 16 env32 2000 rfl rfl

/-- C6: the command buffer built by VTpmContextWrite is the 16-byte service
    GUID, the outer length 28 + RequestSize (the bytes actually written,
    little-endian), a zero reserved word, the inner header {0, SEND(1), 0, 0}
    and the payload; at payload {0xDE,0xAD,0xBE,0xEF} the outer length
    is exactly 32. -/
theorem write_cmd_buffer_layout (request : List Nat) (env : VTpmEnv)
    (t : Nat) (hc : env.cmdAllocOk = true) (hr : env.rspAllocOk = true)
    (hlen : request.length ≤ 4068) :
    (VTpmContextWrite request env t).cmdBuffer =
      some (vtpmServiceGuid ++ le32 (28 + request.length) ++ le32 0 ++
        [0, 1, 0, 0] ++ request) ∧
    le32AtList (buildWriteCmdBuffer request) 16 = 28 + request.length ∧
    buildWriteCmdBuffer [0xDE, 0xAD, 0xBE, 0xEF] =
      vtpmServiceGuid ++ [32, 0, 0, 0] ++ [0, 0, 0, 0] ++ [0, 1, 0, 0] ++
        [0xDE, 0xAD, 0xBE, 0xEF] := by
  have hm : (28 + request.length) % 4294967296 = 28 + request.length :=
    Nat.mod_eq_of_lt (by omega)
  refine ⟨?_, ?_, by decide⟩
  · unfold VTpmContextWrite
    simp [hc, hr, buildWriteCmdBuffer, mSendMessageCommandHeaderTemplate, hm]
  · rw [buildWriteCmdBuffer_length_field]
    omega

/-- C6 witness: the layout theorem applied at the documented example
    payload {0xDE,0xAD,0xBE,0xEF}. -/
theorem write_cmd_buffer_layout_witness :
    (VTpmContextWrite [0xDE, 0xAD, 0xBE, 0xEF] env32 2000).cmdBuffer =
      some (vtpmServiceGuid ++ le32 (28 + 4) ++ le32 0 ++ [0, 1, 0, 0] ++
        [0xDE, 0xAD, 0xBE, 0xEF]) ∧
    le32AtList (buildWriteCmdBuffer [0xDE, 0xAD, 0xBE, 0xEF]) 16 = 28 + 4 ∧
    buildWriteCmdBuffer [0xDE, 0xAD, 0xBE, 0xEF] =
      vtpmServiceGuid ++ [32, 0, 0, 0] ++ [0, 0, 0, 0] ++ [0, 1, 0, 0] ++
        [0xDE, 0xAD, 0xBE, 0xEF] :=
  write_cmd_buffer_layout [0xDE, 0xAD, 0xBE, 0xEF] env32 2000 rfl rfl
    (by decide)

/-- Shape of readCore when the mask, hypercall and both status checks all
    pass: only the capacity comparison on the wrapped 32-bit payload length
    remains. -/
theorem readCore_ok (responseSize : Nat) (env : VTpmEnv)
    (hm : env.tdxSharedBit ≠ 0) (hrc : env.retCode = 0)
    (hrv : env.retValue = 0) (ho : outerRspStatus env = 0)
    (hi : innerRspStatus env = 0) :
    readCore responseSize env =
      (if (outerRspLength env + 2 ^ 32 - 28) % 2 ^ 32 > responseSize then
        (EfiStatus.bufferTooSmall,
          (outerRspLength env + 2 ^ 32 - 28) % 2 ^ 32, ([] : List Nat))
      else
        (EfiStatus.success, (outerRspLength env + 2 ^ 32 - 28) % 2 ^ 32,
          (List.range ((outerRspLength env + 2 ^ 32 - 28) % 2 ^ 32)).map
            (fun i => byteAt env.rspAfter (28 + i)))) := by
  unfold readCore
  rw [if_neg hm, if_neg (by simp [hrc, hrv]), if_neg (by simp [ho]),
    if_neg (by simp [hi])]
  rfl

/-- Shape of VTpmContextRead once both shared buffers allocate: the
    caller-visible outputs are those of readCore, and cleanup frees both
    buffers. -/
theorem VTpmContextRead_alloc_ok (responseSize : Nat) (env : VTpmEnv)
    (t : Nat) (hc : env.cmdAllocOk = true) (hr : env.rspAllocOk = true) :
    VTpmContextRead responseSize env t =
      { status := (readCore responseSize env).1,
        responseSize := (readCore responseSize env).2.1,
        copied := (readCore responseSize env).2.2,
        cmdBuffer := some buildReadCmdBuffer,
        rspSkeleton := some readRspSkeleton,
        invokedTimeout :=
          if env.tdxSharedBit = 0 then none else some VMM_SPDM_TIMEOUT,
        cmdFree := some (FreeSharedBuffer false VTPM_DEFAULT_ALLOCATION_PAGE
          env.freeCmdClear),
        rspFree := some (FreeSharedBuffer false VTPM_DEFAULT_ALLOCATION_PAGE
          env.freeRspClear) } := by
  unfold VTpmContextRead
  rw [if_neg (by simp [hc]), if_neg (by simp [hr])]

/-- C1: when every check up to the capacity comparison passes and the actual
    payload length R = outer Length - 28 exceeds the caller capacity,
    VTpmContextRead returns EFI_BUFFER_TOO_SMALL, rewrites *ResponseSize to
    exactly R and copies nothing into the caller's Response buffer. -/
theorem read_capacity_error (responseSize : Nat) (env : VTpmEnv) (t : Nat)
    (hc : env.cmdAllocOk = true) (hr : env.rspAllocOk = true)
    (hm : env.tdxSharedBit ≠ 0) (hrc : env.retCode = 0)
    (hrv : env.retValue = 0) (ho : outerRspStatus env = 0)
    (hi : innerRspStatus env = 0) (hhd : 28 ≤ outerRspLength env)
    (hcap : responseSize < outerRspLength env - 28) :
    (VTpmContextRead responseSize env t).status = EfiStatus.bufferTooSmall ∧
    (VTpmContextRead responseSize env t).responseSize =
      outerRspLength env - 28 ∧
    (VTpmContextRead responseSize env t).copied = [] := by
  have hlt : outerRspLength env < 2 ^ 32 := outerRspLength_lt env
  have hwrap : (outerRspLength env + 2 ^ 32 - 28) % 2 ^ 32 =
      outerRspLength env - 28 := by omega
  rw [VTpmContextRead_alloc_ok responseSize env t hc hr,
    readCore_ok responseSize env hm hrc hrv ho hi, hwrap,
    if_pos (show outerRspLength env - 28 > responseSize from hcap)]
  exact ⟨rfl, rfl, rfl⟩

/-- C1 witness: outer length 32 (R = 4) against caller capacity 2. -/
theorem read_capacity_error_witness :
    (VTpmContextRead 2 env32 2000).status = EfiStatus.bufferTooSmall ∧
    (VTpmContextRead 2 env32 2000).responseSize =
      outerRspLength env32 - 28 ∧
    (VTpmContextRead 2 env32 2000).copied = [] :=
  read_capacity_error 2 env32 2000 rfl rfl (by decide) rfl rfl (by decide)
    (by decide) (by decide) (by decide)

/-- C4: when every check passes and the actual payload length
    R = outer Length - 28 fits the caller capacity, VTpmContextRead copies
    exactly the R bytes at offset 28 of the response buffer, sets
    *ResponseSize to R and returns EFI_SUCCESS. -/
theorem read_success_copies (responseSize : Nat) (env : VTpmEnv) (t : Nat)
    (hc : env.cmdAllocOk = true) (hr : env.rspAllocOk = true)
    (hm : env.tdxSharedBit ≠ 0) (hrc : env.retCode = 0)
    (hrv : env.retValue = 0) (ho : outerRspStatus env = 0)
    (hi : innerRspStatus env = 0) (hhd : 28 ≤ outerRspLength env)
    (hcap : outerRspLength env - 28 ≤ responseSize) :
    (VTpmContextRead responseSize env t).status = EfiStatus.success ∧
    (VTpmContextRead responseSize env t).responseSize =
      outerRspLength env - 28 ∧
    (VTpmContextRead responseSize env t).copied =
      (List.range (outerRspLength env - 28)).map
        (fun i => byteAt env.rspAfter (28 + i)) ∧
    (VTpmContextRead responseSize env t).copied.length =
      outerRspLength env - 28 := by
  have hlt : outerRspLength env < 2 ^ 32 := outerRspLength_lt env
  have hwrap : (outerRspLength env + 2 ^ 32 - 28) % 2 ^ 32 =
      outerRspLength env - 28 := by omega
  have hnot : ¬ outerRspLength env - 28 > responseSize := by omega
  rw [VTpmContextRead_alloc_ok responseSize env t hc hr,
    readCore_ok responseSize env hm hrc hrv ho hi, hwrap, if_neg hnot]
  refine ⟨rfl, rfl, rfl, ?_⟩
  show ((List.range (outerRspLength env - 28)).map
    (fun i => byteAt env.rspAfter (28 + i))).length = outerRspLength env - 28
  rw [List.length_map, List.length_range]

/-- C4 witness: outer length 32 (R = 4) against caller capacity 8; the four
    payload bytes at offsets 28..31 are copied out. -/
theorem read_success_copies_witness :
    (VTpmContextRead 8 env32 2000).status = EfiStatus.success ∧
    (VTpmContextRead 8 env32 2000).responseSize =
      outerRspLength env32 - 28 ∧
    (VTpmContextRead 8 env32 2000).copied =
      (List.range (outerRspLength env32 - 28)).map
        (fun i => byteAt env32.rspAfter (28 + i)) ∧
    (VTpmContextRead 8 env32 2000).copied.length =
      outerRspLength env32 - 28 :=
  read_success_copies 8 env32 2000 rfl rfl (by decide) rfl rfl (by decide)
    (by decide) (by decide) (by decide)

/-- The success branch of VTpmContextRead stated without assuming the outer
    Length is at least 28: the copied byte count is the wrapped 32-bit
    subtraction result, whatever it is. -/
theorem read_success_wrapped (responseSize : Nat) (env : VTpmEnv) (t : Nat)
    (hc : env.cmdAllocOk = true) (hr : env.rspAllocOk = true)
    (hm : env.tdxSharedBit ≠ 0) (hrc : env.retCode = 0)
    (hrv : env.retValue = 0) (ho : outerRspStatus env = 0)
    (hi : innerRspStatus env = 0)
    (hcap : ¬ (outerRspLength env + 2 ^ 32 - 28) % 2 ^ 32 > responseSize) :
    (VTpmContextRead responseSize env t).status = EfiStatus.success ∧
    (VTpmContextRead responseSize env t).responseSize =
      (outerRspLength env + 2 ^ 32 - 28) % 2 ^ 32 ∧
    (VTpmContextRead responseSize env t).copied.length =
      (outerRspLength env + 2 ^ 32 - 28) % 2 ^ 32 := by
  rw [VTpmContextRead_alloc_ok responseSize env t hc hr,
    readCore_ok responseSize env hm hrc hrv ho hi, if_neg hcap]
  refine ⟨rfl, rfl, ?_⟩
  rw [List.length_map, List.length_range]

/-- C2 (code bug): VTpmContextRead has no guard that the outer Length is at
    least the 28-byte combined header size, so parsing does not fail with a
    protocol error before the payload length is computed. With a host
    response whose outer Length is 0 and both statuses 0, the UINT32
    subtraction Length - HeaderLen wraps to 2^32 - 28, and with a large
    caller capacity the call returns EFI_SUCCESS after copying 2^32 - 28
    bytes - far past the 4096-byte response buffer. -/
theorem read_short_length_wraps :
    outerRspLength envShortLen = 0 ∧
    (VTpmContextRead (2 ^ 32) envShortLen 2000).status = EfiStatus.success ∧
    (VTpmContextRead (2 ^ 32) envShortLen 2000).responseSize =
      2 ^ 32 - 28 ∧
    (VTpmContextRead (2 ^ 32) envShortLen 2000).copied.length =
      2 ^ 32 - 28 ∧
    VTPM_BUFFER_SIZE < 2 ^ 32 - 28 := by
  have hL : outerRspLength envShortLen = 0 := rfl
  obtain ⟨h1, h2, h3⟩ := read_success_wrapped (2 ^ 32) envShortLen 2000
    rfl rfl (by decide) rfl rfl (by decide) (by decide) (by decide)
  refine ⟨hL, h1, ?_, ?_, by norm_num [VTPM_BUFFER_SIZE]⟩
  · rw [h2, hL]; norm_num
  · rw [h3, hL]; norm_num

/-- C7: on every exit path of VTpmContextWrite and VTpmContextRead, each
    successfully allocated shared buffer is released via FreeSharedBuffer
    (the command buffer whenever its allocation succeeded, the response
    buffer whenever both allocations succeeded), and the outcomes of the
    release calls never change the status the call returns. -/
theorem buffers_always_released (request : List Nat) (responseSize : Nat)
    (env : VTpmEnv) (t : Nat) (f1 f2 : EfiStatus) :
    (VTpmContextWrite request env t).cmdFree =
      (if env.cmdAllocOk = true then
        some (FreeSharedBuffer false VTPM_DEFAULT_ALLOCATION_PAGE
          env.freeCmdClear)
      else none) ∧
    (VTpmContextWrite request env t).rspFree =
      (if env.cmdAllocOk = true ∧ env.rspAllocOk = true then
        some (FreeSharedBuffer false VTPM_DEFAULT_ALLOCATION_PAGE
          env.freeRspClear)
      else none) ∧
    (VTpmContextRead responseSize env t).cmdFree =
      (if env.cmdAllocOk = true then
        some (FreeSharedBuffer false VTPM_DEFAULT_ALLOCATION_PAGE
          env.freeCmdClear)
      else none) ∧
    (VTpmContextRead responseSize env t).rspFree =
      (if env.cmdAllocOk = true ∧ env.rspAllocOk = true then
        some (FreeSharedBuffer false VTPM_DEFAULT_ALLOCATION_PAGE
          env.freeRspClear)
      else none) ∧
    (VTpmContextWrite request
        { env with freeCmdClear := f1, freeRspClear := f2 } t).status =
      (VTpmContextWrite request env t).status ∧
    (VTpmContextRead responseSize
        { env with freeCmdClear := f1, freeRspClear := f2 } t).status =
      (VTpmContextRead responseSize env t).status := by
  obtain ⟨a, b, c, d, e, f, g, h⟩ := env
  cases a <;> cases b <;> exact ⟨rfl, rfl, rfl, rfl, rfl, rfl⟩
